import Mathlib

/-!
Shallow embedding of the `StormpathUser` model of loopback-stormpath
(common/models/stormpath-user.js): credential normalization, the
login/logout/confirm state machines, and access-token ttl clamping.

JavaScript string truthiness (`undefined` and `""` are falsy) is modelled
by `Option String` together with `jsStr`/`strTruthy`; JavaScript numeric
truthiness for ttl values (`0` and `undefined` are falsy) by `Option Nat`
together with `jsOr`.  External collaborators (the Stormpath account
directory, bcrypt, the access-token store) are oracle parameters.
-/

namespace Stormpath

/-- JS truthiness for an optional string: `undefined` and `""` are falsy.
Normalizes a falsy value to `none`. -/
def jsStr (o : Option String) : Option String :=
  match o with
  | some s => if s.isEmpty then none else some s
  | none => none

/-- JS boolean test `!!s` for an optional string. -/
def strTruthy (o : Option String) : Bool :=
  (jsStr o).isSome

/-- JS `o || d` for an optional number, where `0` and `undefined` are falsy. -/
def jsOr (o : Option Nat) (d : Nat) : Nat :=
  match o with
  | some n => if n == 0 then d else n
  | none => d

/-- Predicate `isPre xs ys` holds when the list `xs` is an initial segment of `ys`. -/
def isPre : List Char → List Char → Bool
  | [], _ => true
  | _ :: _, [] => false
  | a :: as, b :: bs => a == b && isPre as bs

/-- Worker for `jsIndexOf`: first position at or after offset `k` where
`needle` starts inside the haystack. -/
def indexOfSubGo (needle : List Char) : List Char → Nat → Option Nat
  | [], k => if isPre needle [] then some k else none
  | c :: t, k => if isPre needle (c :: t) then some k else indexOfSubGo needle t (k + 1)

/-- JS `hay.indexOf(needle)`: index of the first occurrence of `needle` in
`hay`, `none` for JS's `-1`. -/
def jsIndexOf (hay needle : String) : Option Nat :=
  indexOfSubGo needle.data hay.data 0

/-- Function `splitPrincipal(name, realmDelimiter)` from stormpath-user.js: returns
the pair `(parts[0], parts[1])`, initially `(null, name)`; when the
delimiter is truthy and occurs in `name`, `parts[0]` is the substring
before its first occurrence and `parts[1]` the substring after it. -/
def splitPrincipal (name : String) (realmDelimiter : Option String) : Option String × String :=
  match jsStr realmDelimiter with
  | none => (none, name)
  | some d =>
    match jsIndexOf name d with
    | none => (none, name)
    | some i =>
      (some (String.mk (name.data.take i)), String.mk (name.data.drop (i + d.length)))

/-- Ephemeral login input `credentials`. -/
structure Credentials where
  username : Option String := none
  email : Option String := none
  password : Option String := none
  realm : Option String := none
  ttl : Option Nat := none
deriving DecidableEq

/-- The normalized lookup query built by `normalizeCredentials`.  A field
is `none` exactly when the JS object has no such property; note the code
can assign an empty string (e.g. `query.email = parts[1]`). -/
structure Query where
  email : Option String := none
  username : Option String := none
  realm : Option String := none
deriving DecidableEq

/-- Method `StormpathUser.normalizeCredentials(credentials, realmRequired,
realmDelimiter)` from stormpath-user.js. -/
def normalizeCredentials (credentials : Credentials) (realmRequired : Bool)
    (realmDelimiter : Option String) : Query :=
  if !realmRequired then
    match jsStr credentials.email with
    | some _ => { email := credentials.email }
    | none =>
      match jsStr credentials.username with
      | some _ => { username := credentials.username }
      | none => {}
  else
    let base : Query :=
      if strTruthy credentials.realm then { realm := credentials.realm } else {}
    match jsStr credentials.email with
    | some e =>
      let parts := splitPrincipal e realmDelimiter
      { base with
        email := some parts.2
        realm := if strTruthy parts.1 then parts.1 else base.realm }
    | none =>
      match jsStr credentials.username with
      | some u =>
        let parts := splitPrincipal u realmDelimiter
        { base with
          username := some parts.2
          realm := if strTruthy parts.1 then parts.1 else base.realm }
      | none => base

/-- Raw model settings as supplied by the host app, before
`StormpathUser.setup()` fills in defaults (`x || DEFAULT`). -/
structure RawSettings where
  realmRequired : Bool := false
  realmDelimiter : Option String := none
  emailVerificationRequired : Bool := false
  ttl : Option Nat := none
  maxTTL : Option Nat := none

/-- Model settings after `StormpathUser.setup()` ran: `ttl` and `maxTTL`
are always present. -/
structure Settings where
  realmRequired : Bool := false
  realmDelimiter : Option String := none
  emailVerificationRequired : Bool := false
  ttl : Nat := 1209600
  maxTTL : Nat := 31556926

/-- Constant `DEFAULT_TTL` (2 weeks in seconds). -/
def DEFAULT_TTL : Nat := 1209600

/-- Constant `DEFAULT_MAX_TTL` (1 year in seconds). -/
def DEFAULT_MAX_TTL : Nat := 31556926

/-- The settings part of `StormpathUser.setup()`:
`maxTTL = maxTTL || DEFAULT_MAX_TTL; ttl = ttl || DEFAULT_TTL`. -/
def setup (raw : RawSettings) : Settings :=
  { realmRequired := raw.realmRequired
    realmDelimiter := raw.realmDelimiter
    emailVerificationRequired := raw.emailVerificationRequired
    ttl := jsOr raw.ttl DEFAULT_TTL
    maxTTL := jsOr raw.maxTTL DEFAULT_MAX_TTL }

/-- An access token as created by the token store (`accessTokens.create`). -/
structure Token where
  id : String
  ttl : Nat
deriving DecidableEq

/-- Method `createAccessToken(ttl, options, cb)` from stormpath-user.js, with the
token store's `create` as an oracle.  The requested ttl is clamped:
`ttl = Math.min(ttl || settings.ttl, settings.maxTTL)`. -/
def createAccessToken (settings : Settings) (requestedTtl : Option Nat)
    (create : Nat → Except String Token) : Except String Token :=
  create (min (jsOr requestedTtl settings.ttl) settings.maxTTL)

/-- A Stormpath account record as seen by this model. -/
structure Account where
  id : String
  username : Option String := none
  email : Option String := none
  password : Option String := none
  emailVerified : Bool := false
  verificationToken : Option String := none
deriving DecidableEq

/-- Method `StormpathUser.prototype.hasPassword(plain, fn)`: bcrypt comparison is
invoked only when both the stored hash and the plaintext are truthy,
otherwise the result is `false` with no error. -/
def hasPassword (user : Account) (plain : Option String)
    (bcryptCompare : String → String → Except String Bool) : Except String Bool :=
  match jsStr user.password, jsStr plain with
  | some hashed, some pl =>
    match bcryptCompare pl hashed with
    | .error e => .error e
    | .ok isMatch => .ok isMatch
  | _, _ => .ok false

/-- Outcome of the account directory's `findOne({where: query})`. -/
inductive FindOneResult where
  | err (e : String)
  | found (user : Account)
  | notFound
deriving DecidableEq

/-- The `include` argument of `login`: absent, a string, or an array. -/
inductive IncludeArg where
  | undef
  | str (s : String)
  | arr (ss : List String)
deriving DecidableEq

/-- JS `s.toLowerCase()`, characterwise. -/
def jsToLower (s : String) : String :=
  String.mk (s.data.map Char.toLower)

/-- The lowercasing of `include` at the top of `login`. -/
def normalizeInclude : IncludeArg → IncludeArg
  | .undef => .str ""
  | .str s => .str (jsToLower s)
  | .arr ss => .arr (ss.map jsToLower)

/-- The membership test in `tokenHandler`:
`Array.isArray(include) ? include.indexOf(.user.) !== -1 : include === .user.`. -/
def wantsUser : IncludeArg → Bool
  | .undef => false
  | .str s => s == "user"
  | .arr ss => ss.contains "user"

/-- The outcome `login` delivers to its callback. -/
inductive LoginResult where
  | ok (token : Token) (attachedUser : Option Account)
  | appError (code : String) (statusCode : Nat)
  | extError (e : String)
deriving DecidableEq

/-- Local `realmRequired = !!(settings.realmRequired || settings.realmDelimiter)`
inside `login`. -/
def loginRealmRequired (settings : Settings) : Bool :=
  settings.realmRequired || strTruthy settings.realmDelimiter

/-- The local `realmDelimiter` inside `login`: only set when a realm is
required. -/
def loginRealmDelimiter (settings : Settings) : Option String :=
  if loginRealmRequired settings then settings.realmDelimiter else none

/-- The normalized query `login` hands to the account directory. -/
def loginQuery (settings : Settings) (credentials : Credentials) : Query :=
  normalizeCredentials credentials (loginRealmRequired settings) (loginRealmDelimiter settings)

/-- Method `StormpathUser.login(credentials, include, fn)` from stormpath-user.js.
The account directory (`findOne`), bcrypt, and the token store (`create`)
are oracles.  Both call shapes of `createAccessToken` inside the source
pass `credentials.ttl` as the requested ttl, so they collapse to one call
here. -/
def login (settings : Settings) (credentials : Credentials) (includeArg : IncludeArg)
    (findOne : Query → FindOneResult)
    (bcryptCompare : String → String → Except String Bool)
    (create : Nat → Except String Token) : LoginResult :=
  if loginRealmRequired settings && !strTruthy (loginQuery settings credentials).realm then
    .appError "REALM_REQUIRED" 400
  else if !strTruthy (loginQuery settings credentials).email &&
      !strTruthy (loginQuery settings credentials).username then
    .appError "USERNAME_EMAIL_REQUIRED" 400
  else
    match findOne (loginQuery settings credentials) with
    | .err _ => .appError "LOGIN_FAILED" 401
    | .notFound => .appError "LOGIN_FAILED" 401
    | .found user =>
      match hasPassword user credentials.password bcryptCompare with
      | .error _ => .appError "LOGIN_FAILED" 401
      | .ok isMatch =>
        if isMatch then
          if settings.emailVerificationRequired && !user.emailVerified then
            .appError "LOGIN_FAILED_EMAIL_NOT_VERIFIED" 401
          else
            match createAccessToken settings credentials.ttl create with
            | .error e => .extError e
            | .ok token =>
              .ok token (if wantsUser (normalizeInclude includeArg) then some user else none)
        else
          .appError "LOGIN_FAILED" 401

/-- The outcome `logout` delivers to its callback.  The source's
not-found error is `new Error(.could not find accessToken.)` with no code
or status attached; it is the `tokenNotFound` constructor here. -/
inductive LogoutResult where
  | ok
  | tokenNotFound
  | extError (e : String)
deriving DecidableEq

/-- The access-token store used by `logout`, with injectable lookup and
destroy errors. -/
structure TokenStore where
  tokens : List Token
  findErr : String → Option String
  destroyErr : String → Option String

/-- Lookup `AccessToken.findById` over the store's token list. -/
def findTokenById (tokens : List Token) (tokenId : String) : Option Token :=
  tokens.find? (fun t => t.id == tokenId)

/-- Method `StormpathUser.logout(tokenId, fn)` from stormpath-user.js: lookup
errors are propagated, a missing token yields the not-found error, an
existing token is destroyed (destroy errors propagated), success carries
no payload. -/
def logout (store : TokenStore) (tokenId : String) : LogoutResult × TokenStore :=
  match store.findErr tokenId with
  | some e => (.extError e, store)
  | none =>
    match findTokenById store.tokens tokenId with
    | none => (.tokenNotFound, store)
    | some _ =>
      match store.destroyErr tokenId with
      | some e => (.extError e, store)
      | none => (.ok, { store with tokens := store.tokens.filter (fun t => !(t.id == tokenId)) })

/-- The outcome `confirm` delivers to its callback. -/
inductive ConfirmResult where
  | ok
  | appError (code : String) (statusCode : Nat)
  | extError (e : String)
deriving DecidableEq

/-- The account store used by `confirm`, with injectable findById and save
errors. -/
structure UserStore where
  accounts : List Account
  findErr : String → Option String
  saveErr : String → Option String

/-- Lookup `StormpathUser.findById` over the store's account list. -/
def findAccountById (accounts : List Account) (uid : String) : Option Account :=
  accounts.find? (fun a => a.id == uid)

/-- Persistence `user.save()`: replace the stored account with the same id. -/
def saveAccount (accounts : List Account) (user : Account) : List Account :=
  accounts.map (fun a => if a.id == user.id then user else a)

/-- Method `StormpathUser.confirm(uid, token, redirect, fn)` from
stormpath-user.js.  The token comparison is JS `===` on
`user.verificationToken` and the supplied token, modelled as equality of
`Option String`. -/
def confirm (store : UserStore) (uid : String) (token : Option String) :
    ConfirmResult × UserStore :=
  match store.findErr uid with
  | some e => (.extError e, store)
  | none =>
    match findAccountById store.accounts uid with
    | some user =>
      if user.verificationToken == token then
        let saved : Account := { user with verificationToken := none, emailVerified := true }
        match store.saveErr uid with
        | some e => (.extError e, store)
        | none => (.ok, { store with accounts := saveAccount store.accounts saved })
      else
        (.appError "INVALID_TOKEN" 400, store)
    | none => (.appError "USER_NOT_FOUND" 404, store)

/-! ## Helper lemmas -/

/-- A falsy optional string normalizes to `none`. -/
lemma jsStr_eq_none_of_not_truthy (o : Option String) (h : strTruthy o = false) :
    jsStr o = none := by
  unfold strTruthy at h
  cases hj : jsStr o with
  | none => rfl
  | some s => rw [hj] at h; simp at h

/-- Short-circuit: `hasPassword` never consults bcrypt when either side is falsy. -/
lemma hasPassword_falsy (user : Account) (plain : Option String)
    (bcryptCompare : String → String → Except String Bool)
    (h : (strTruthy user.password && strTruthy plain) = false) :
    hasPassword user plain bcryptCompare = .ok false := by
  unfold hasPassword
  unfold strTruthy at h
  cases hp : jsStr user.password <;> cases hq : jsStr plain <;>
    simp [hp, hq] at h ⊢

/-- A list is an initial segment of itself followed by anything. -/
lemma isPre_append (xs zs : List Char) : isPre xs (xs ++ zs) = true := by
  induction xs with
  | nil => rfl
  | cons a as ih => simp [isPre, ih]

/-- An initial segment can be peeled off as a list prefix. -/
lemma exists_of_isPre : ∀ xs ys : List Char, isPre xs ys = true → ∃ zs, ys = xs ++ zs := by
  intro xs
  induction xs with
  | nil => exact fun ys _ => ⟨ys, rfl⟩
  | cons a as ih =>
    intro ys h
    cases ys with
    | nil => simp [isPre] at h
    | cons b bs =>
      unfold isPre at h
      simp only [Bool.and_eq_true, beq_iff_eq] at h
      obtain ⟨rfl, h2⟩ := h
      obtain ⟨zs, rfl⟩ := ih bs h2
      exact ⟨zs, rfl⟩

/-- Soundness of the index search: a hit at `j` (searching from offset
`k`) means the needle starts at position `j - k` of the haystack and at
no earlier position. -/
lemma indexOfSubGo_sound (needle : List Char) :
    ∀ (hay : List Char) (k j : Nat), indexOfSubGo needle hay k = some j →
      k ≤ j ∧ isPre needle (hay.drop (j - k)) = true
      ∧ ∀ m, m < j - k → isPre needle (hay.drop m) = false := by
  intro hay
  induction hay with
  | nil =>
    intro k j h
    unfold indexOfSubGo at h
    by_cases hp : isPre needle [] = true
    · rw [if_pos hp] at h
      obtain rfl : k = j := Option.some.inj h
      exact ⟨le_refl _, by simpa using hp, fun m hm => absurd hm (by omega)⟩
    · rw [if_neg hp] at h
      exact absurd h (by simp)
  | cons c t ih =>
    intro k j h
    unfold indexOfSubGo at h
    by_cases hp : isPre needle (c :: t) = true
    · rw [if_pos hp] at h
      obtain rfl : k = j := Option.some.inj h
      exact ⟨le_refl _, by simpa using hp, fun m hm => absurd hm (by omega)⟩
    · rw [if_neg hp] at h
      obtain ⟨hk, hpre, hmin⟩ := ih (k + 1) j h
      refine ⟨by omega, ?_, ?_⟩
      · have heq : j - k = (j - (k + 1)) + 1 := by omega
        rw [heq, List.drop_succ_cons]
        exact hpre
      · intro m hm
        cases m with
        | zero => simpa using hp
        | succ m' =>
          rw [List.drop_succ_cons]
          exact hmin m' (by omega)

/-- Completeness face of the index search: a miss means the needle
starts nowhere in the haystack. -/
lemma indexOfSubGo_none (needle : List Char) :
    ∀ (hay : List Char) (k : Nat), indexOfSubGo needle hay k = none →
      ∀ m, isPre needle (hay.drop m) = false := by
  intro hay
  induction hay with
  | nil =>
    intro k h m
    unfold indexOfSubGo at h
    by_cases hp : isPre needle [] = true
    · rw [if_pos hp] at h; exact absurd h (by simp)
    · simpa [List.drop_nil] using hp
  | cons c t ih =>
    intro k h m
    unfold indexOfSubGo at h
    by_cases hp : isPre needle (c :: t) = true
    · rw [if_pos hp] at h; exact absurd h (by simp)
    · rw [if_neg hp] at h
      cases m with
      | zero => simpa using hp
      | succ m' =>
        rw [List.drop_succ_cons]
        exact ih (k + 1) h m'

/-- A string built from a nonempty character list is not empty. -/
lemma mk_cons_isEmpty_false (c : Char) (t : List Char) :
    (String.mk (c :: t)).isEmpty = false := by
  cases h : (String.mk (c :: t)).isEmpty
  · rfl
  · exfalso
    have h2 : String.mk (c :: t) = "" := (String.isEmpty_iff _).mp h
    have := congrArg String.data h2
    simp at this

/-- A string with `isEmpty = false` has a nonempty character list. -/
lemma data_ne_nil_of_not_isEmpty (s : String) (h : s.isEmpty = false) : s.data ≠ [] := by
  intro hd
  cases s with
  | mk data =>
    simp only at hd
    subst hd
    exact absurd h (by decide)

/-- After `saveAccount`, looking the id up again yields the saved record. -/
lemma findAccountById_saveAccount (accounts : List Account) (uid : String) (u v : Account)
    (hfind : findAccountById accounts uid = some u) (hid : v.id = u.id) :
    findAccountById (saveAccount accounts v) uid = some v := by
  have huid : u.id = uid := by
    have := List.find?_some hfind
    simpa using this
  unfold findAccountById saveAccount at *
  induction accounts with
  | nil => simp at hfind
  | cons a as ih =>
    by_cases ha : a.id = uid
    · rw [List.find?_cons_of_pos _ (by simp [ha])] at hfind
      have hv : a.id = v.id := by rw [ha, ← huid, ← hid]
      simp only [List.map_cons, if_pos (by simp [hv] : (a.id == v.id) = true)]
      exact List.find?_cons_of_pos _ (by simp [hid, huid])
    · rw [List.find?_cons_of_neg _ (by simp [ha])] at hfind
      have hv : ¬(a.id == v.id) = true := by
        simp only [beq_iff_eq]
        intro hcontra
        exact ha (by rw [hcontra, hid, huid])
      simp only [List.map_cons, if_neg hv]
      rw [List.find?_cons_of_neg _ (by simp [ha])]
      exact ih hfind

/-- Destroying every token with the given id makes a later lookup miss. -/
lemma findTokenById_filter (tokens : List Token) (tokenId : String) :
    findTokenById (tokens.filter (fun t => !(t.id == tokenId))) tokenId = none := by
  unfold findTokenById
  rw [List.find?_eq_none]
  intro t ht
  have := (List.mem_filter.mp ht).2
  simpa using this

/-- A string over a nonempty character list is truthy. -/
lemma strTruthy_mk_cons (c : Char) (t : List Char) :
    strTruthy (some (String.mk (c :: t))) = true := by
  simp [strTruthy, jsStr, mk_cons_isEmpty_false]

/-- Evaluation of `splitPrincipal` when the delimiter is found. -/
lemma splitPrincipal_found (name d : String) (hd : d.isEmpty = false) (i : Nat)
    (hidx : jsIndexOf name d = some i) :
    splitPrincipal name (some d)
        = (some (String.mk (name.data.take i)), String.mk (name.data.drop (i + d.length))) := by
  unfold splitPrincipal
  simp [jsStr, hd, hidx]

/-- Evaluation of `splitPrincipal` when the delimiter does not occur. -/
lemma splitPrincipal_missing (name d : String) (hd : d.isEmpty = false)
    (hidx : jsIndexOf name d = none) :
    splitPrincipal name (some d) = (none, name) := by
  unfold splitPrincipal
  simp [jsStr, hd, hidx]

/-- With a realm required and a truthy username (email falsy), the
normalized query is the username branch of the source, written in terms
of `splitPrincipal`. -/
lemma normalizeCredentials_username_branch (c : Credentials) (rd : Option String)
    (name : String) (hu : jsStr c.email = none) (hn : jsStr c.username = some name) :
    normalizeCredentials c true rd
        = { username := some (splitPrincipal name rd).2
            realm := if strTruthy (splitPrincipal name rd).1 then (splitPrincipal name rd).1
                     else if strTruthy c.realm then c.realm else none } := by
  unfold normalizeCredentials
  rw [hu, hn]
  by_cases hr : strTruthy c.realm <;> simp [hr]

/-- With a realm required and a truthy email, the normalized query is
the email branch of the source, written in terms of `splitPrincipal`. -/
lemma normalizeCredentials_email_branch (c : Credentials) (rd : Option String)
    (name : String) (he : jsStr c.email = some name) :
    normalizeCredentials c true rd
        = { email := some (splitPrincipal name rd).2
            realm := if strTruthy (splitPrincipal name rd).1 then (splitPrincipal name rd).1
                     else if strTruthy c.realm then c.realm else none } := by
  unfold normalizeCredentials
  rw [he]
  by_cases hr : strTruthy c.realm <;> simp [hr]

/-- Fallback `jsOr` of a nonzero default is nonzero. -/
lemma jsOr_ne_zero (o : Option Nat) (d : Nat) (hd : d ≠ 0) : jsOr o d ≠ 0 := by
  cases o with
  | none => simpa [jsOr]
  | some n =>
    by_cases hn : n = 0 <;> simp [jsOr, hn, hd]

end Stormpath

namespace Stormpath

/-! ## Claim theorems -/

/-- Claim C3: `createAccessToken` issues a token with
`ttl = min(requestedTtl or the configured default ttl, configured maxTTL)`;
the defaults installed by `setup` are `ttl = 1209600` and
`maxTTL = 31556926`; with those defaults a requested ttl of `10000000`
is honored and `40000000` is clamped to `31556926`. -/
theorem createAccessToken_clamps_ttl (s : Settings) (req : Option Nat) (tokenId : String) :
    createAccessToken s req (fun n => .ok ⟨tokenId, n⟩)
        = .ok ⟨tokenId, min (jsOr req s.ttl) s.maxTTL⟩
    ∧ (setup {}).ttl = 1209600
    ∧ (setup {}).maxTTL = 31556926
    ∧ createAccessToken (setup {}) (some 10000000) (fun n => .ok ⟨tokenId, n⟩)
        = .ok ⟨tokenId, 10000000⟩
    ∧ createAccessToken (setup {}) (some 40000000) (fun n => .ok ⟨tokenId, n⟩)
        = .ok ⟨tokenId, 31556926⟩ :=
  ⟨rfl, rfl, rfl, rfl, rfl⟩

/-- Claim C10: a falsy requested ttl (`0` or absent) falls back to the
configured default before clamping, and after `setup` has installed the
defaults no issued token can have `ttl = 0`. -/
theorem createAccessToken_zero_ttl_uses_default (raw : RawSettings) (req : Option Nat)
    (tokenId : String) (create : Nat → Except String Token) :
    createAccessToken (setup raw) (some 0) create = createAccessToken (setup raw) none create
    ∧ createAccessToken (setup raw) (some 0) (fun n => .ok ⟨tokenId, n⟩)
        = .ok ⟨tokenId, min (setup raw).ttl (setup raw).maxTTL⟩
    ∧ (∀ tok, createAccessToken (setup raw) req (fun n => .ok ⟨tokenId, n⟩) = .ok tok →
        tok.ttl ≠ 0) := by
  refine ⟨rfl, rfl, fun tok h => ?_⟩
  have htok : tok = ⟨tokenId, min (jsOr req (setup raw).ttl) (setup raw).maxTTL⟩ := by
    have := h.symm
    simpa [createAccessToken] using this
  have httl : (setup raw).ttl ≠ 0 := jsOr_ne_zero raw.ttl DEFAULT_TTL (by decide)
  have hmax : (setup raw).maxTTL ≠ 0 := jsOr_ne_zero raw.maxTTL DEFAULT_MAX_TTL (by decide)
  have h1 : jsOr req (setup raw).ttl ≠ 0 := jsOr_ne_zero req _ httl
  have hpos : 0 < min (jsOr req (setup raw).ttl) (setup raw).maxTTL :=
    lt_min (Nat.pos_of_ne_zero h1) (Nat.pos_of_ne_zero hmax)
  rw [htok]
  exact Nat.pos_iff_ne_zero.mp hpos

/-- Witness for C10 at a concrete configuration and request. -/
theorem createAccessToken_zero_ttl_uses_default_witness :
    createAccessToken (setup {}) (some 0) (fun n => .ok ⟨"t", n⟩)
        = .ok ⟨"t", min (setup {}).ttl (setup {}).maxTTL⟩
    ∧ (Token.mk "t" 3).ttl ≠ 0 :=
  ⟨(createAccessToken_zero_ttl_uses_default {} (some 3) "t" (fun n => .ok ⟨"t", n⟩)).2.1,
   (createAccessToken_zero_ttl_uses_default {} (some 3) "t" (fun n => .ok ⟨"t", n⟩)).2.2
     ⟨"t", 3⟩ rfl⟩

/-- Claim C5: when a realm is required (settings flag or configured
delimiter) and the normalized query carries no realm, `login` fails with
`REALM_REQUIRED` (status 400); the conclusion holds for every directory,
bcrypt, and token-store oracle, so no directory access can influence
it. -/
theorem login_realm_required (s : Settings) (c : Credentials) (inc : IncludeArg)
    (findOne : Query → FindOneResult)
    (bcryptCompare : String → String → Except String Bool)
    (create : Nat → Except String Token)
    (hrr : loginRealmRequired s = true)
    (hnorealm : strTruthy (loginQuery s c).realm = false) :
    login s c inc findOne bcryptCompare create = .appError "REALM_REQUIRED" 400 := by
  simp [login, hrr, hnorealm]

/-- Witness for C5: realm required, credentials with a correct-looking
password but no realm. -/
theorem login_realm_required_witness :
    login { realmRequired := true } { username := some "alice", password := some "pw" }
      .undef (fun _ => .found { id := "u1", password := some "pw" }) (fun _ _ => .ok true)
      (fun n => .ok ⟨"t", n⟩) = .appError "REALM_REQUIRED" 400 :=
  login_realm_required { realmRequired := true }
    { username := some "alice", password := some "pw" } .undef
    (fun _ => .found { id := "u1", password := some "pw" }) (fun _ _ => .ok true)
    (fun n => .ok ⟨"t", n⟩) rfl rfl

/-- Counterexample to C6 as stated: with `realmRequired = true` and empty
credentials the normalized query has neither email nor username, yet
`login` fails with `REALM_REQUIRED`, not `USERNAME_EMAIL_REQUIRED`,
because the realm check runs first. -/
theorem login_username_email_required_counterexample :
    strTruthy (loginQuery { realmRequired := true } {}).email = false
    ∧ strTruthy (loginQuery { realmRequired := true } {}).username = false
    ∧ login { realmRequired := true } {} .undef (fun _ => .notFound)
        (fun _ _ => .ok false) (fun n => .ok ⟨"t", n⟩)
        ≠ .appError "USERNAME_EMAIL_REQUIRED" 400
    ∧ login { realmRequired := true } {} .undef (fun _ => .notFound)
        (fun _ _ => .ok false) (fun n => .ok ⟨"t", n⟩)
        = .appError "REALM_REQUIRED" 400 := by
  refine ⟨rfl, rfl, ?_, rfl⟩
  decide

/-- Claim C6 (amended): provided the realm requirement is satisfied
(the realm check does not fire first), a normalized query with neither
email nor username makes `login` fail with `USERNAME_EMAIL_REQUIRED`
(status 400) for every directory oracle, i.e. before any directory
access. -/
theorem login_username_email_required (s : Settings) (c : Credentials) (inc : IncludeArg)
    (findOne : Query → FindOneResult)
    (bcryptCompare : String → String → Except String Bool)
    (create : Nat → Except String Token)
    (hrealm : (loginRealmRequired s && !strTruthy (loginQuery s c).realm) = false)
    (hemail : strTruthy (loginQuery s c).email = false)
    (husername : strTruthy (loginQuery s c).username = false) :
    login s c inc findOne bcryptCompare create = .appError "USERNAME_EMAIL_REQUIRED" 400 := by
  simp [login, hrealm, hemail, husername]

/-- Witness for the amended C6: no realm requirement, empty credentials. -/
theorem login_username_email_required_witness :
    login {} {} .undef (fun _ => .notFound) (fun _ _ => .ok false)
      (fun n => .ok ⟨"t", n⟩) = .appError "USERNAME_EMAIL_REQUIRED" 400 :=
  login_username_email_required {} {} .undef (fun _ => .notFound) (fun _ _ => .ok false)
    (fun n => .ok ⟨"t", n⟩) rfl rfl rfl

/-- Claim C1: once `login` reaches the directory lookup (both input
checks pass), all four failure causes — directory error, no matching
account, bcrypt error, and password mismatch — produce the one constant
error `LOGIN_FAILED` with status 401.  Each conclusion is independent of
the underlying error string and of the other oracles, so a caller cannot
distinguish a nonexistent principal from a wrong password, and no
directory or comparison error ever reaches the caller. -/
theorem login_failures_indistinguishable (s : Settings) (c : Credentials) (inc : IncludeArg)
    (create : Nat → Except String Token)
    (hrealm : (loginRealmRequired s && !strTruthy (loginQuery s c).realm) = false)
    (hprincipal : (!strTruthy (loginQuery s c).email
        && !strTruthy (loginQuery s c).username) = false) :
    (∀ (findOne : Query → FindOneResult) (cmp : String → String → Except String Bool)
        (e : String), findOne (loginQuery s c) = .err e →
        login s c inc findOne cmp create = .appError "LOGIN_FAILED" 401)
    ∧ (∀ (findOne : Query → FindOneResult) (cmp : String → String → Except String Bool),
        findOne (loginQuery s c) = .notFound →
        login s c inc findOne cmp create = .appError "LOGIN_FAILED" 401)
    ∧ (∀ (findOne : Query → FindOneResult) (cmp : String → String → Except String Bool)
        (u : Account) (e : String), findOne (loginQuery s c) = .found u →
        hasPassword u c.password cmp = .error e →
        login s c inc findOne cmp create = .appError "LOGIN_FAILED" 401)
    ∧ (∀ (findOne : Query → FindOneResult) (cmp : String → String → Except String Bool)
        (u : Account), findOne (loginQuery s c) = .found u →
        hasPassword u c.password cmp = .ok false →
        login s c inc findOne cmp create = .appError "LOGIN_FAILED" 401) := by
  refine ⟨?_, ?_, ?_, ?_⟩
  · intro findOne cmp e hfind
    simp [login, hrealm, hprincipal, hfind]
  · intro findOne cmp hfind
    simp [login, hrealm, hprincipal, hfind]
  · intro findOne cmp u e hfind hcmp
    simp [login, hrealm, hprincipal, hfind, hcmp]
  · intro findOne cmp u hfind hcmp
    simp [login, hrealm, hprincipal, hfind, hcmp]

/-- Witness for C1: a directory error at a concrete login collapses to
the generic failure. -/
theorem login_failures_indistinguishable_witness :
    login {} { username := some "alice", password := some "pw" } .undef
      (fun _ => .err "connector down") (fun _ _ => .ok true) (fun n => .ok ⟨"t", n⟩)
      = .appError "LOGIN_FAILED" 401 :=
  (login_failures_indistinguishable {} { username := some "alice", password := some "pw" }
    .undef (fun n => .ok ⟨"t", n⟩) rfl rfl).1
    (fun _ => .err "connector down") (fun _ _ => .ok true) "connector down" rfl

/-- Claim C4: with the account found, the password matching,
`emailVerificationRequired = true` and the account unverified, `login`
fails with the specific `LOGIN_FAILED_EMAIL_NOT_VERIFIED` (status 401);
the conclusion holds for every token-store oracle, so no token is
created. -/
theorem login_unverified_email_error (s : Settings) (c : Credentials) (inc : IncludeArg)
    (u : Account)
    (hrealm : (loginRealmRequired s && !strTruthy (loginQuery s c).realm) = false)
    (hprincipal : (!strTruthy (loginQuery s c).email
        && !strTruthy (loginQuery s c).username) = false)
    (hver : s.emailVerificationRequired = true)
    (hunv : u.emailVerified = false) :
    ∀ (findOne : Query → FindOneResult) (cmp : String → String → Except String Bool)
      (create : Nat → Except String Token), findOne (loginQuery s c) = .found u →
      hasPassword u c.password cmp = .ok true →
      login s c inc findOne cmp create = .appError "LOGIN_FAILED_EMAIL_NOT_VERIFIED" 401 := by
  intro findOne cmp create hfind hcmp
  simp [login, hrealm, hprincipal, hfind, hcmp, hver, hunv]

/-- Witness for C4: correct password, verification required, unverified
account. -/
theorem login_unverified_email_error_witness :
    login { emailVerificationRequired := true }
      { username := some "alice", password := some "pw" } .undef
      (fun _ => .found { id := "u1", password := some "hash" }) (fun _ _ => .ok true)
      (fun n => .ok ⟨"t", n⟩) = .appError "LOGIN_FAILED_EMAIL_NOT_VERIFIED" 401 :=
  login_unverified_email_error { emailVerificationRequired := true }
    { username := some "alice", password := some "pw" } .undef
    { id := "u1", password := some "hash" } rfl rfl rfl rfl
    (fun _ => .found { id := "u1", password := some "hash" }) (fun _ _ => .ok true)
    (fun n => .ok ⟨"t", n⟩) rfl rfl

/-- Claim C9: `hasPassword` answers `false` with no error and without
consulting bcrypt whenever the stored hash or the plaintext is falsy
(the `bcryptCompare` oracle is universally quantified), and a login
whose password is empty or missing — once it passes the input checks —
always fails with the generic `LOGIN_FAILED`, for every directory, bcrypt
and token-store oracle, whatever the stored hash is. -/
theorem empty_password_never_authenticates (u : Account) (plain : Option String)
    (s : Settings) (c : Credentials) (inc : IncludeArg)
    (findOne : Query → FindOneResult)
    (cmp : String → String → Except String Bool)
    (create : Nat → Except String Token)
    (hshort : (strTruthy u.password && strTruthy plain) = false)
    (hpw : strTruthy c.password = false)
    (hrealm : (loginRealmRequired s && !strTruthy (loginQuery s c).realm) = false)
    (hprincipal : (!strTruthy (loginQuery s c).email
        && !strTruthy (loginQuery s c).username) = false) :
    hasPassword u plain cmp = .ok false
    ∧ login s c inc findOne cmp create = .appError "LOGIN_FAILED" 401 := by
  refine ⟨hasPassword_falsy u plain cmp hshort, ?_⟩
  have hcp : ∀ v : Account, hasPassword v c.password cmp = .ok false := by
    intro v
    exact hasPassword_falsy v c.password cmp (by simp [hpw])
  cases hfind : findOne (loginQuery s c) with
  | err e => simp [login, hrealm, hprincipal, hfind]
  | notFound => simp [login, hrealm, hprincipal, hfind]
  | found v => simp [login, hrealm, hprincipal, hfind, hcp v]

/-- Witness for C9: empty supplied password against a stored hash. -/
theorem empty_password_never_authenticates_witness :
    hasPassword { id := "u1", password := some "hash" } (some "") (fun _ _ => .ok true)
        = .ok false
    ∧ login {} { username := some "alice", password := some "" } .undef
        (fun _ => .found { id := "u1", password := some "hash" }) (fun _ _ => .ok true)
        (fun n => .ok ⟨"t", n⟩) = .appError "LOGIN_FAILED" 401 :=
  empty_password_never_authenticates { id := "u1", password := some "hash" } (some "")
    {} { username := some "alice", password := some "" } .undef
    (fun _ => .found { id := "u1", password := some "hash" }) (fun _ _ => .ok true)
    (fun n => .ok ⟨"t", n⟩) rfl rfl rfl rfl

/-- Claim C7: `confirm` fails with `USER_NOT_FOUND` (404) when the id is
unknown; with `INVALID_TOKEN` (400), leaving the store unchanged, when
the account exists but its verification token differs; and on a matching
token it clears the token, sets `emailVerified`, persists the account,
and a second `confirm` with the same (now-cleared) token fails with
`INVALID_TOKEN`. -/
theorem confirm_verification_flow (st : UserStore) (uid : String) (t : String)
    (hf : st.findErr uid = none) (hs : st.saveErr uid = none) :
    (findAccountById st.accounts uid = none →
      confirm st uid (some t) = (.appError "USER_NOT_FOUND" 404, st))
    ∧ (∀ u, findAccountById st.accounts uid = some u → u.verificationToken ≠ some t →
      confirm st uid (some t) = (.appError "INVALID_TOKEN" 400, st))
    ∧ (∀ u, findAccountById st.accounts uid = some u → u.verificationToken = some t →
      (confirm st uid (some t)).1 = .ok
      ∧ findAccountById (confirm st uid (some t)).2.accounts uid
          = some { u with verificationToken := none, emailVerified := true }
      ∧ (confirm (confirm st uid (some t)).2 uid (some t)).1
          = .appError "INVALID_TOKEN" 400) := by
  refine ⟨?_, ?_, ?_⟩
  · intro hnone
    simp [confirm, hf, hnone]
  · intro u hfound hne
    have hb : (u.verificationToken == some t) = false := by
      simp [beq_iff_eq, hne]
    simp [confirm, hf, hfound, hb]
  · intro u hfound hmatch
    have hstep : confirm st uid (some t)
        = (.ok, UserStore.mk
            (saveAccount st.accounts ({ u with verificationToken := none, emailVerified := true }))
            st.findErr st.saveErr) := by
      simp [confirm, hf, hfound, hmatch, hs]
    have hfind2 : findAccountById
        (saveAccount st.accounts { u with verificationToken := none, emailVerified := true }) uid
        = some { u with verificationToken := none, emailVerified := true } :=
      findAccountById_saveAccount st.accounts uid u _ hfound rfl
    refine ⟨by rw [hstep], by rw [hstep]; exact hfind2, ?_⟩
    rw [hstep]
    simp [confirm, hf, hfind2]

/-- Witness for C7: one account, matching token, then a replayed
confirm. -/
theorem confirm_verification_flow_witness :
    (confirm ⟨[{ id := "u1", verificationToken := some "vt" }],
        fun _ => none, fun _ => none⟩ "u1" (some "vt")).1 = .ok
    ∧ findAccountById (confirm ⟨[{ id := "u1", verificationToken := some "vt" }],
        fun _ => none, fun _ => none⟩ "u1" (some "vt")).2.accounts "u1"
        = some { id := "u1", verificationToken := none, emailVerified := true }
    ∧ (confirm (confirm ⟨[{ id := "u1", verificationToken := some "vt" }],
        fun _ => none, fun _ => none⟩ "u1" (some "vt")).2 "u1" (some "vt")).1
        = .appError "INVALID_TOKEN" 400 :=
  (confirm_verification_flow ⟨[{ id := "u1", verificationToken := some "vt" }],
      fun _ => none, fun _ => none⟩ "u1" "vt" rfl rfl).2.2
    { id := "u1", verificationToken := some "vt" } rfl rfl

/-- Claim C8: `logout` propagates a lookup error verbatim; an unknown
token id yields the not-found error; an existing token is destroyed
(destroy errors propagated verbatim), success carries no payload, and a
subsequent `logout` with the same id yields the not-found error. -/
theorem logout_token_lifecycle (st : TokenStore) (tokenId : String) :
    (∀ e, st.findErr tokenId = some e → logout st tokenId = (.extError e, st))
    ∧ (st.findErr tokenId = none → findTokenById st.tokens tokenId = none →
        logout st tokenId = (.tokenNotFound, st))
    ∧ (∀ tok e, st.findErr tokenId = none → findTokenById st.tokens tokenId = some tok →
        st.destroyErr tokenId = some e → logout st tokenId = (.extError e, st))
    ∧ (∀ tok, st.findErr tokenId = none → st.destroyErr tokenId = none →
        findTokenById st.tokens tokenId = some tok →
        (logout st tokenId).1 = .ok
        ∧ findTokenById (logout st tokenId).2.tokens tokenId = none
        ∧ (logout (logout st tokenId).2 tokenId).1 = .tokenNotFound) := by
  refine ⟨?_, ?_, ?_, ?_⟩
  · intro e he
    simp [logout, he]
  · intro hf hnone
    simp [logout, hf, hnone]
  · intro tok e hf hfound hd
    simp [logout, hf, hfound, hd]
  · intro tok hf hd hfound
    have hstep : logout st tokenId
        = (.ok, { st with tokens := st.tokens.filter (fun t => !(t.id == tokenId)) }) := by
      simp [logout, hf, hfound, hd]
    refine ⟨by rw [hstep], by rw [hstep]; exact findTokenById_filter st.tokens tokenId, ?_⟩
    rw [hstep]
    simp [logout, hf, findTokenById_filter st.tokens tokenId]

/-- Counterexample to C2 as stated: with an explicit `credentials.realm`
and a principal whose delimiter prefix is empty (`"/alice"`), the empty
substring before the delimiter does not become the realm — the explicit
realm survives, where the claim predicts `realm = ""`. -/
theorem normalizeCredentials_counterexample :
    normalizeCredentials { username := some "/alice", realm := some "r" } true (some "/")
        = { username := some "alice", realm := some "r" }
    ∧ (normalizeCredentials { username := some "/alice", realm := some "r" } true
        (some "/")).realm ≠ some "" := by
  exact ⟨by decide, by decide⟩

/-- Claim C2 (amended): with `realmRequired = false` the query copies
`email` if truthy, else `username`, and never carries a realm.  With
`realmRequired = true` and a truthy username (the email case is stated
alongside): if the configured delimiter first occurs at position `i > 0`
then the (nonempty) substring before it becomes the realm — overriding
any explicit `credentials.realm` — and the substring after it becomes
the principal under the same field name; if the first occurrence is at
position `0` (empty prefix) the explicit realm, if any, is kept; if the
delimiter is absent or unconfigured the whole string is the principal
and no realm is derived from it.  The claim's two concrete examples
hold. -/
theorem normalizeCredentials_amended (c : Credentials) (rd : Option String)
    (name d : String) (i : Nat)
    (hu : jsStr c.email = none) (hn : jsStr c.username = some name)
    (hd : d.isEmpty = false) :
    (∀ c2 : Credentials, (normalizeCredentials c2 false rd).realm = none)
    ∧ (∀ c2 : Credentials, jsStr c2.email ≠ none →
        normalizeCredentials c2 false rd = { email := c2.email })
    ∧ (∀ c2 : Credentials, jsStr c2.email = none → jsStr c2.username ≠ none →
        normalizeCredentials c2 false rd = { username := c2.username })
    ∧ (jsIndexOf name d = some i → 0 < i →
        normalizeCredentials c true (some d)
            = { username := some (String.mk (name.data.drop (i + d.length)))
                realm := some (String.mk (name.data.take i)) }
        ∧ (∀ c2 : Credentials, jsStr c2.email = some name →
            normalizeCredentials c2 true (some d)
                = { email := some (String.mk (name.data.drop (i + d.length)))
                    realm := some (String.mk (name.data.take i)) })
        ∧ name.data = name.data.take i ++ d.data ++ name.data.drop (i + d.length)
        ∧ (∀ m, m < i → isPre d.data (name.data.drop m) = false))
    ∧ (jsIndexOf name d = some 0 →
        normalizeCredentials c true (some d)
            = { username := some (String.mk (name.data.drop (0 + d.length)))
                realm := if strTruthy c.realm then c.realm else none })
    ∧ (jsIndexOf name d = none →
        (∀ m, isPre d.data (name.data.drop m) = false)
        ∧ normalizeCredentials c true (some d)
            = { username := some name, realm := if strTruthy c.realm then c.realm else none })
    ∧ (normalizeCredentials c true none
        = { username := some name, realm := if strTruthy c.realm then c.realm else none })
    ∧ normalizeCredentials { username := some "tenantA/alice" } true (some "/")
        = { realm := some "tenantA", username := some "alice" }
    ∧ normalizeCredentials { username := some "alice" } false none
        = { username := some "alice" } := by
  refine ⟨?_, ?_, ?_, ?_, ?_, ?_, ?_, by decide, by decide⟩
  · intro c2
    unfold normalizeCredentials
    cases h1 : jsStr c2.email with
    | some v => simp [h1]
    | none =>
      cases h2 : jsStr c2.username with
      | some v => simp [h1, h2]
      | none => simp [h1, h2]
  · intro c2 h1
    cases h2 : jsStr c2.email with
    | none => exact absurd h2 h1
    | some v => unfold normalizeCredentials; simp [h2]
  · intro c2 h1 h2
    cases h3 : jsStr c2.username with
    | none => exact absurd h3 h2
    | some v => unfold normalizeCredentials; simp [h1, h3]
  · intro hidx hi
    have hidx' : indexOfSubGo d.data name.data 0 = some i := hidx
    obtain ⟨-, hpre, hmin⟩ := indexOfSubGo_sound d.data name.data 0 i hidx'
    simp only [Nat.sub_zero] at hpre hmin
    obtain ⟨zs, hzs⟩ := exists_of_isPre d.data (name.data.drop i) hpre
    have hdrop : name.data.drop (i + d.length) = zs := by
      have h1 : name.data.drop (i + d.length) = (name.data.drop i).drop d.length := by
        rw [List.drop_drop, Nat.add_comm]
      rw [h1, hzs]
      exact List.drop_left d.data zs
    have hdecomp : name.data = name.data.take i ++ d.data ++ name.data.drop (i + d.length) := by
      rw [hdrop, List.append_assoc, ← hzs]
      exact (List.take_append_drop i name.data).symm
    have htruthy : strTruthy (some (String.mk (name.data.take i))) = true := by
      cases hname : name.data with
      | nil =>
        exfalso
        rw [hname] at hidx'
        unfold indexOfSubGo at hidx'
        cases hdd : d.data with
        | nil => exact data_ne_nil_of_not_isEmpty d hd hdd
        | cons a t => rw [hdd] at hidx'; simp [isPre] at hidx'
      | cons a l =>
        obtain ⟨i', rfl⟩ : ∃ i', i = i' + 1 := ⟨i - 1, by omega⟩
        rw [List.take_succ_cons]
        exact strTruthy_mk_cons a (l.take i')
    refine ⟨?_, ?_, hdecomp, hmin⟩
    · rw [normalizeCredentials_username_branch c (some d) name hu hn,
        splitPrincipal_found name d hd i hidx]
      simp [htruthy]
    · intro c2 he
      rw [normalizeCredentials_email_branch c2 (some d) name he,
        splitPrincipal_found name d hd i hidx]
      simp [htruthy]
  · intro hidx
    rw [normalizeCredentials_username_branch c (some d) name hu hn,
      splitPrincipal_found name d hd 0 hidx]
    have h0 : strTruthy (some "") = false := by decide
    simp [h0]
  · intro hidx
    have hidx' : indexOfSubGo d.data name.data 0 = none := hidx
    refine ⟨fun m => indexOfSubGo_none d.data name.data 0 hidx' m, ?_⟩
    rw [normalizeCredentials_username_branch c (some d) name hu hn,
      splitPrincipal_missing name d hd hidx]
    simp [strTruthy, jsStr]
  · rw [normalizeCredentials_username_branch c none name hu hn]
    simp [splitPrincipal, strTruthy, jsStr]

/-- Witness for the amended C2: the tenant example with an explicit
realm that gets overridden by the nonempty prefix. -/
theorem normalizeCredentials_amended_witness :
    normalizeCredentials { username := some "tenantA/alice", realm := some "r0" } true
        (some "/") = { username := some "alice", realm := some "tenantA" } :=
  ((normalizeCredentials_amended { username := some "tenantA/alice", realm := some "r0" }
      none "tenantA/alice" "/" 7 rfl rfl rfl).2.2.2.1 rfl (by decide)).1

/-- Witness for C8: one stored token, logout, then a replayed logout. -/
theorem logout_token_lifecycle_witness :
    (logout ⟨[⟨"t1", 5⟩], fun _ => none, fun _ => none⟩ "t1").1 = .ok
    ∧ findTokenById (logout ⟨[⟨"t1", 5⟩], fun _ => none, fun _ => none⟩ "t1").2.tokens "t1"
        = none
    ∧ (logout (logout ⟨[⟨"t1", 5⟩], fun _ => none, fun _ => none⟩ "t1").2 "t1").1
        = .tokenNotFound :=
  (logout_token_lifecycle ⟨[⟨"t1", 5⟩], fun _ => none, fun _ => none⟩ "t1").2.2.2
    ⟨"t1", 5⟩ rfl rfl rfl

end Stormpath
